import Mathlib

/-!
Verification of the client-side download feature of the
`awesome-econ-ai-stuff` static site (`src/assets/js/download.js`).

The JavaScript is shallowly embedded: JS strings become Lean `String`s
manipulated through char-list helpers mirroring the JS string methods;
the ambient browser state (`window.siteBaseurl`, the HTML base tag,
`window.location.pathname`) becomes an explicit `PageState`; the network
becomes a function from URL to an optional response (`none` models a
rejected fetch promise); DOM side effects (zip save, file save, alert,
button label/disabled updates) become fields of explicit outcome records.
-/

/-- Embedding of JS `s.startsWith(pre)`. -/
def jsStartsWith (s pre : String) : Bool := List.isPrefixOf pre.data s.data

/-- Embedding of JS `s.endsWith(suf)` (used to model the regex `/\/$/`). -/
def jsEndsWith (s suf : String) : Bool := List.isSuffixOf suf.data s.data

/-- Embedding of JS `s.substring(n)` (drop the first `n` characters). -/
def jsDropChars (s : String) (n : Nat) : String := String.mk (s.data.drop n)

/-- Embedding of JS `s.replace(/\/$/, '')`: strip one trailing slash. -/
def stripTrailingSlash (s : String) : String :=
  if jsEndsWith s "/" then String.mk s.data.dropLast else s

/-- Whitespace recognizer backing the embedding of JS `s.trim()`. -/
def jsIsWhitespace (c : Char) : Bool :=
  c = ' ' || c = '\t' || c = '\n' || c = '\r' || c = '\x0b' || c = '\x0c'

/-- Embedding of JS `s.trim()`: strip whitespace from both ends. -/
def jsTrim (s : String) : String :=
  String.mk (((s.data.dropWhile jsIsWhitespace).reverse.dropWhile jsIsWhitespace).reverse)

/-- Helper for `jsSplit`: accumulates the current segment (reversed). -/
def jsSplitAux (sep : Char) : List Char → List Char → List String
  | [], acc => [String.mk acc.reverse]
  | c :: rest, acc =>
    if c = sep then String.mk acc.reverse :: jsSplitAux sep rest []
    else jsSplitAux sep rest (c :: acc)

/-- Embedding of JS `s.split(sep)` for a one-character separator. -/
def jsSplit (s : String) (sep : Char) : List String := jsSplitAux sep s.data []

/-- Helper for `jsIncludes`: substring search over char lists. -/
def listIsInfixOf (sub : List Char) : List Char → Bool
  | [] => List.isPrefixOf sub []
  | c :: rest => List.isPrefixOf sub (c :: rest) || listIsInfixOf sub rest

/-- Embedding of JS `s.includes(sub)`. -/
def jsIncludes (s sub : String) : Bool := listIsInfixOf sub.data s.data

/-- A fetch response: `ok` is JS `response.ok`, `body` is `response.text()`. -/
structure FetchResponse where
  ok : Bool
  statusText : String
  body : String
deriving DecidableEq

/-- The network, as seen by the script: maps a URL to its response.
`none` models a rejected `fetch` promise (network error). -/
def FetchEnv : Type := String → Option FetchResponse

/-- Ambient browser state read by `download.js`:
`siteBaseurl` is `window.siteBaseurl` (`none` when `typeof` it is
`undefined`); `baseHrefPathname` is `new URL(baseTag.href).pathname` when a
`<base>` tag with a truthy `href` exists, else `none`; `locationPathname`
is `window.location.pathname`. -/
structure PageState where
  siteBaseurl : Option String
  baseHrefPathname : Option String
  locationPathname : String
deriving DecidableEq

/-- `const GITHUB_REPO` from `download.js`. -/
def GITHUB_REPO : String := "meleantonio/awesome-econ-ai-stuff"

/-- `const GITHUB_BRANCH` from `download.js`. -/
def GITHUB_BRANCH : String := "main"

/-- The secondary (fallback) URL built in `fetchFileContent`:
`https://raw.githubusercontent.com/` + repo + `/` + branch + `/` + path. -/
def githubRawUrl (path : String) : String :=
  "https://raw.githubusercontent.com/" ++ GITHUB_REPO ++ "/" ++ GITHUB_BRANCH ++ "/" ++ path

/-- State-passing embedding of `getBaseUrl()` (download.js lines 64-80).
Every branch only reads the ambient state, so each returns `st` unchanged. -/
def getBaseUrlS (st : PageState) : String × PageState :=
  match st.siteBaseurl with
  | some b => (b, st)
  | none =>
    match st.baseHrefPathname with
    | some p => (stripTrailingSlash p, st)
    | none =>
      let path := st.locationPathname
      if jsIncludes path "/awesome-econ-ai-stuff" then ("/awesome-econ-ai-stuff", st)
      else ("", st)

/-- The value computed by `getBaseUrl()`. -/
def getBaseUrl (st : PageState) : String := (getBaseUrlS st).1

/-- The primary URL tried by `fetchFileContent`: baseUrl + `/` + path. -/
def primaryUrl (st : PageState) (path : String) : String :=
  getBaseUrl st ++ "/" ++ path

/-- The HTML-detection test of `fetchFileContent` (line 43):
`content.trim().startsWith('<!DOCTYPE') || content.trim().startsWith('<html')`. -/
def isHtmlContent (content : String) : Bool :=
  jsStartsWith (jsTrim content) "<!DOCTYPE" || jsStartsWith (jsTrim content) "<html"

/-- Outcome of the primary attempt inside `fetchFileContent` (lines 37-50):
`some content` when the response is ok and the body passes the HTML check;
`none` when the fetch rejects, the response is not ok, or the body looks
like HTML — every such case falls through to the GitHub raw fallback. -/
def primaryResult (env : FetchEnv) (st : PageState) (path : String) : Option String :=
  match env (primaryUrl st path) with
  | some r =>
    if r.ok then
      if isHtmlContent r.body then none else some r.body
    else none
  | none => none

/-- Embedding of `fetchFileContent(path)` (lines 33-59): try the primary
base-prefixed URL, fall back to the GitHub raw URL; an `.error` models a
rejected promise reaching the caller. -/
def fetchFileContent (env : FetchEnv) (st : PageState) (path : String) : Except String String :=
  match primaryResult env st path with
  | some content => .ok content
  | none =>
    match env (githubRawUrl path) with
    | some r =>
      if r.ok then .ok r.body
      else .error ("Failed to fetch " ++ path ++ " from GitHub: " ++ r.statusText)
    | none => .error ("TypeError: fetch failed for " ++ githubRawUrl path)

/-- One catalog entry of `SKILLS_LIST`. -/
structure Skill where
  path : String
  name : String
deriving DecidableEq

/-- The hardcoded `SKILLS_LIST` of `download.js` (lines 15-28). -/
def SKILLS_LIST : List Skill :=
  [⟨"_skills/analysis/r-econometrics/SKILL.md", "r-econometrics"⟩,
   ⟨"_skills/analysis/stata-regression/SKILL.md", "stata-regression"⟩,
   ⟨"_skills/analysis/python-panel-data/SKILL.md", "python-panel-data"⟩,
   ⟨"_skills/data/stata-data-cleaning/SKILL.md", "stata-data-cleaning"⟩,
   ⟨"_skills/data/api-data-fetcher/SKILL.md", "api-data-fetcher"⟩,
   ⟨"_skills/theory/latex-econ-model/SKILL.md", "latex-econ-model"⟩,
   ⟨"_skills/writing/academic-paper-writer/SKILL.md", "academic-paper-writer"⟩,
   ⟨"_skills/writing/latex-tables/SKILL.md", "latex-tables"⟩,
   ⟨"_skills/communication/beamer-presentation/SKILL.md", "beamer-presentation"⟩,
   ⟨"_skills/communication/econ-visualization/SKILL.md", "econ-visualization"⟩,
   ⟨"_skills/ideation/research-ideation/SKILL.md", "research-ideation"⟩,
   ⟨"_skills/literature/lit-review-assistant/SKILL.md", "lit-review-assistant"⟩]

/-- The in-memory zip being built by `downloadAllSkills`: JSZip folder
entries plus file entries (full path paired with content). -/
structure ZipArchive where
  folders : List String
  files : List (String × String)
deriving DecidableEq

/-- JSZip `folder(name)` semantics: creating an already-existing folder
reuses it, so a folder path is recorded at most once. -/
def addFolder (fs : List String) (f : String) : List String :=
  if f ∈ fs then fs else fs ++ [f]

/-- The zip right after `zip.folder('skills')` (line 101): one empty
top-level folder and no files. -/
def emptySkillsZip : ZipArchive := { folders := ["skills"], files := [] }

/-- The body of the per-skill success path (lines 108-115): create the
category and skill folders under `skills` and add the `SKILL.md` file. -/
def addSkillToZip (z : ZipArchive) (category skillName content : String) : ZipArchive :=
  let fs := addFolder z.folders ("skills/" ++ category)
  let fs := addFolder fs ("skills/" ++ category ++ "/" ++ skillName)
  { folders := fs,
    files := z.files ++ [("skills/" ++ category ++ "/" ++ skillName ++ "/SKILL.md", content)] }

/-- The archive path a successfully fetched skill lands at:
`skills/` + pathParts[1] + `/` + pathParts[2] + `/SKILL.md`, where
pathParts is the skill path split on `/` (JS out-of-range indexing yields
`undefined`, which JSZip stringifies). -/
def zipFilePath (p : String) : String :=
  let parts := jsSplit p '/'
  "skills/" ++ parts.getD 1 "undefined" ++ "/" ++ parts.getD 2 "undefined" ++ "/SKILL.md"

/-- One iteration of the `SKILLS_LIST.map` callback (lines 104-120): a
resolved entry is added to the zip, a failed one is logged and skipped. -/
def zipStep (env : FetchEnv) (st : PageState) (z : ZipArchive) (skill : Skill) : ZipArchive :=
  match fetchFileContent env st skill.path with
  | .ok content =>
    let parts := jsSplit skill.path '/'
    addSkillToZip z (parts.getD 1 "undefined") (parts.getD 2 "undefined") content
  | .error _ => z

/-- The archive contents after `await Promise.all(fetchPromises)`: every
per-entry promise settles (each catches its own error), so the resulting
set of entries is the fold of `zipStep` over the catalog. -/
def assembleZip (env : FetchEnv) (st : PageState) (catalog : List Skill) : ZipArchive :=
  catalog.foldl (zipStep env st) emptySkillsZip

/-- Whether `fetchFileContent` rejects for this skill (both attempts fail). -/
def resolveFails (env : FetchEnv) (st : PageState) (skill : Skill) : Bool :=
  match fetchFileContent env st skill.path with
  | .ok _ => false
  | .error _ => true

/-- Whether the GitHub raw fallback fetch fails for this path (the fetch
promise rejects, or the response has a non-ok status). -/
def secondaryFetchFails (env : FetchEnv) (path : String) : Bool :=
  match env (githubRawUrl path) with
  | some r => !r.ok
  | none => true

/-- Environment of one `downloadAllSkills` run: the network, whether
`window.JSZip` is loaded (line 96), and whether `zip.generateAsync`
resolves (line 125). -/
structure BulkEnv where
  fetch : FetchEnv
  jszipLoaded : Bool
  generateOk : Bool

/-- Observable outcome of `downloadAllSkills`: the saved zip (filename and
archive) when the save-as action ran, whether `alert` was shown, and the
final state of the `download-all-btn` button. -/
structure BulkOutcome where
  savedZip : Option (String × ZipArchive)
  alerted : Bool
  buttonDisabled : Bool
  buttonLabel : String

/-- Embedding of `downloadAllSkills()` (lines 85-147), generalized over the
catalog (the source passes the fixed `SKILLS_LIST`). A missing JSZip or a
failing `generateAsync` throws into the catch block (alert + reset); fetch
failures never do, because each map callback catches its own error. Both
exits reset the button to enabled with the idle label. -/
def downloadAllSkillsWith (benv : BulkEnv) (st : PageState) (catalog : List Skill) : BulkOutcome :=
  if benv.jszipLoaded = false then
    { savedZip := none, alerted := true,
      buttonDisabled := false, buttonLabel := "Download All Skills" }
  else
    let zip := assembleZip benv.fetch st catalog
    if benv.generateOk = false then
      { savedZip := none, alerted := true,
        buttonDisabled := false, buttonLabel := "Download All Skills" }
    else
      { savedZip := some ("awesome-econ-ai-skills.zip", zip), alerted := false,
        buttonDisabled := false, buttonLabel := "Download All Skills" }

/-- `downloadAllSkills()` as shipped: runs on the hardcoded catalog. -/
def downloadAllSkills (benv : BulkEnv) (st : PageState) : BulkOutcome :=
  downloadAllSkillsWith benv st SKILLS_LIST

/-- State-passing embedding of the path derivation inside
`downloadSkillFile` (lines 161-175): read the current path, compute the
base URL, strip the base prefix when the path starts with it, strip one
trailing slash, append `/SKILL.md`, rewrite a leading `/skills/` to
`_skills/`. No statement writes to the ambient state. -/
def deriveSkillPathS (st : PageState) : String × PageState :=
  let currentPath := st.locationPathname
  let bu := getBaseUrlS st
  let baseUrl := bu.1
  let st := bu.2
  let skillPath :=
    if baseUrl ≠ "" ∧ jsStartsWith currentPath baseUrl then
      jsDropChars currentPath baseUrl.length
    else currentPath
  let skillPath := stripTrailingSlash skillPath ++ "/SKILL.md"
  let skillPath :=
    if jsStartsWith skillPath "/skills/" then "_skills/" ++ jsDropChars skillPath 8
    else skillPath
  (skillPath, st)

/-- The derived single-file target path. -/
def deriveSkillPath (st : PageState) : String := (deriveSkillPathS st).1

/-- Observable outcome of `downloadSkillFile`: the saved file (name and
content) when the save-as action ran, whether `alert` was shown, and the
final state of the `download-skill-btn` button. -/
structure SingleOutcome where
  savedFile : Option (String × String)
  alerted : Bool
  buttonDisabled : Bool
  buttonLabel : String

/-- Embedding of `downloadSkillFile()` (lines 152-207): derive the path,
resolve it via `fetchFileContent`, and either save
`<skillName>-SKILL.md` (skillName is the second-to-last path segment, or
`skill` when that segment is missing or empty) or alert. Both exits reset
the button to enabled with the idle label. -/
def downloadSkillFile (env : FetchEnv) (st : PageState) : SingleOutcome :=
  let skillPath := deriveSkillPath st
  match fetchFileContent env st skillPath with
  | .ok content =>
    let parts := jsSplit skillPath '/'
    let raw := if parts.length < 2 then "" else parts.getD (parts.length - 2) ""
    let skillName := if raw = "" then "skill" else raw
    { savedFile := some (skillName ++ "-SKILL.md", content), alerted := false,
      buttonDisabled := false, buttonLabel := "Download SKILL.md" }
  | .error _ =>
    { savedFile := none, alerted := true,
      buttonDisabled := false, buttonLabel := "Download SKILL.md" }

/-- Test fixture: an ok response whose body is a rendered HTML page. -/
def wRespHtml : FetchResponse :=
  ⟨true, "OK", "<!DOCTYPE html><html><body>rendered page</body></html>"⟩

/-- Test fixture: an ok response with genuine markdown content. -/
def wRespReal : FetchResponse := ⟨true, "OK", "# latex-tables skill"⟩

/-- Test fixture: page state with an injected empty base url. -/
def wStEmpty : PageState := ⟨some "", none, "/"⟩

/-- Test fixture: a fully unreachable network (every fetch rejects). -/
def wEnvNone : FetchEnv := fun _ => none

/-- Test fixture: the primary URL serves an HTML page, the GitHub raw URL
serves real markdown. -/
def wEnvHtmlThenReal : FetchEnv := fun url =>
  if url = "/_skills/writing/latex-tables/SKILL.md" then some wRespHtml
  else if url = githubRawUrl "_skills/writing/latex-tables/SKILL.md" then some wRespReal
  else none

/-- Test fixture: catalog entry x, served by the primary URL. -/
def wSkillX : Skill := ⟨"_skills/data/x/SKILL.md", "x"⟩

/-- Test fixture: catalog entry y, served by no URL. -/
def wSkillY : Skill := ⟨"_skills/data/y/SKILL.md", "y"⟩

/-- Test fixture: network serving only entry x at its primary URL. -/
def wEnvOnlyX : FetchEnv := fun url =>
  if url = "/_skills/data/x/SKILL.md" then some wRespReal else none

/-- Test fixture: network serving only the latex-tables primary URL. -/
def wEnvOnlyLatex : FetchEnv := fun url =>
  if url = "/_skills/writing/latex-tables/SKILL.md" then some wRespReal else none

/-- Test fixture: network where only the GitHub raw URL of `p.md` answers,
with an HTML body. -/
def wEnvRawHtml : FetchEnv := fun url =>
  if url = githubRawUrl "p.md" then some wRespHtml else none

/-- Test fixture: bulk environment around `wEnvOnlyX`, JSZip loaded and
serialization succeeding. -/
def wBulkOnlyX : BulkEnv := ⟨wEnvOnlyX, true, true⟩

/-- Test fixture: bulk environment around `wEnvOnlyLatex`. -/
def wBulkOnlyLatex : BulkEnv := ⟨wEnvOnlyLatex, true, true⟩

/-- Test fixture: bulk environment around the unreachable network. -/
def wBulkNone : BulkEnv := ⟨wEnvNone, true, true⟩

/-- Test fixture: page state on a skill page of the deployed site. -/
def wStDeployed : PageState :=
  ⟨some "/awesome-econ-ai-stuff", none, "/awesome-econ-ai-stuff/skills/analysis/r-econometrics/"⟩

/-- Test fixture: state with an injected base url (priority clause 1). -/
def wStInjected : PageState := ⟨some "/injected", some "/tag/", "/x"⟩

/-- Test fixture: state with only a base tag (priority clause 2). -/
def wStBaseTag : PageState := ⟨none, some "/tag/", "/x"⟩

/-- Test fixture: state matching the deployment sub-path heuristic
(priority clause 3). -/
def wStHeuristic : PageState := ⟨none, none, "/awesome-econ-ai-stuff/skills/"⟩

/-- Test fixture: state matching no detection clause (priority clause 4). -/
def wStPlain : PageState := ⟨none, none, "/other/page"⟩

/-- Test fixture: the latex-tables catalog entry of `SKILLS_LIST`. -/
def wSkillLatex : Skill := ⟨"_skills/writing/latex-tables/SKILL.md", "latex-tables"⟩

theorem jsStartsWith_append (b s : String) : jsStartsWith (b ++ s) b = true := by
  unfold jsStartsWith
  rw [String.data_append, List.isPrefixOf_iff_prefix]
  exact List.prefix_append _ _

theorem jsDropChars_append (b s : String) : jsDropChars (b ++ s) b.length = s := by
  unfold jsDropChars
  rw [String.data_append]
  show String.mk ((b.data ++ s.data).drop b.data.length) = s
  rw [List.drop_left]

theorem getBaseUrlS_snd (st : PageState) : (getBaseUrlS st).2 = st := by
  unfold getBaseUrlS
  cases st.siteBaseurl with
  | some b => rfl
  | none =>
    cases st.baseHrefPathname with
    | some p => rfl
    | none =>
      by_cases h : jsIncludes st.locationPathname "/awesome-econ-ai-stuff" = true <;> simp [h]

theorem deriveSkillPathS_snd (st : PageState) : (deriveSkillPathS st).2 = st :=
  getBaseUrlS_snd st

theorem resolveFails_false_iff (env : FetchEnv) (st : PageState) (skill : Skill) :
    resolveFails env st skill = false ↔
      ∃ c, fetchFileContent env st skill.path = .ok c := by
  unfold resolveFails
  cases hf : fetchFileContent env st skill.path with
  | ok c => simp [hf]
  | error e => simp [hf]

theorem zipStep_of_ok (env : FetchEnv) (st : PageState) (z : ZipArchive) (skill : Skill)
    (content : String) (h : fetchFileContent env st skill.path = .ok content) :
    (zipStep env st z skill).files = z.files ++ [(zipFilePath skill.path, content)] := by
  unfold zipStep zipFilePath addSkillToZip
  rw [h]

theorem zipStep_of_fail (env : FetchEnv) (st : PageState) (z : ZipArchive) (skill : Skill)
    (h : resolveFails env st skill = true) : zipStep env st z skill = z := by
  unfold resolveFails at h
  unfold zipStep
  cases hf : fetchFileContent env st skill.path with
  | ok c => simp [hf] at h
  | error e => simp [hf]

theorem foldl_zipStep_length (env : FetchEnv) (st : PageState) :
    ∀ (catalog : List Skill) (z : ZipArchive),
      (catalog.foldl (zipStep env st) z).files.length
          + catalog.countP (resolveFails env st)
        = z.files.length + catalog.length := by
  intro catalog
  induction catalog with
  | nil => intro z; simp
  | cons a l ih =>
    intro z
    rw [List.foldl_cons]
    cases hr : resolveFails env st a with
    | true =>
      have hcnt : List.countP (resolveFails env st) (a :: l)
          = List.countP (resolveFails env st) l + 1 := by
        simp [List.countP_cons, hr]
      rw [hcnt, zipStep_of_fail env st z a hr]
      have h2 := ih z
      simp only [List.length_cons]
      omega
    | false =>
      have hcnt : List.countP (resolveFails env st) (a :: l)
          = List.countP (resolveFails env st) l := by
        simp [List.countP_cons, hr]
      obtain ⟨c, hc⟩ := (resolveFails_false_iff env st a).mp hr
      have hlen : (zipStep env st z a).files.length = z.files.length + 1 := by
        rw [zipStep_of_ok env st z a c hc]; simp
      have h2 := ih (zipStep env st z a)
      rw [hcnt]
      simp only [List.length_cons]
      omega

theorem foldl_zipStep_mono (env : FetchEnv) (st : PageState) :
    ∀ (catalog : List Skill) (z : ZipArchive) (x : String × String),
      x ∈ z.files → x ∈ (catalog.foldl (zipStep env st) z).files := by
  intro catalog
  induction catalog with
  | nil => intro z x hx; simpa using hx
  | cons a l ih =>
    intro z x hx
    rw [List.foldl_cons]
    apply ih
    unfold zipStep
    cases hf : fetchFileContent env st a.path with
    | ok c =>
      simp only [addSkillToZip]
      exact List.mem_append_left _ hx
    | error e => exact hx

theorem foldl_zipStep_mem (env : FetchEnv) (st : PageState) :
    ∀ (catalog : List Skill) (z : ZipArchive) (skill : Skill) (content : String),
      skill ∈ catalog → fetchFileContent env st skill.path = .ok content →
      (zipFilePath skill.path, content) ∈ (catalog.foldl (zipStep env st) z).files := by
  intro catalog
  induction catalog with
  | nil =>
    intro z skill content hmem _
    exact absurd hmem (List.not_mem_nil skill)
  | cons a l ih =>
    intro z skill content hmem hok
    rw [List.foldl_cons]
    rcases List.mem_cons.mp hmem with h | h
    · subst h
      apply foldl_zipStep_mono
      rw [zipStep_of_ok env st z skill content hok]
      exact List.mem_append_right _ (List.mem_singleton.mpr rfl)
    · exact ih (zipStep env st z a) skill content h hok

theorem foldl_zipStep_all_fail (env : FetchEnv) (st : PageState) :
    ∀ (catalog : List Skill) (z : ZipArchive),
      (∀ skill ∈ catalog, resolveFails env st skill = true) →
      catalog.foldl (zipStep env st) z = z := by
  intro catalog
  induction catalog with
  | nil => intro z _; rfl
  | cons a l ih =>
    intro z h
    rw [List.foldl_cons, zipStep_of_fail env st z a (h a (List.mem_cons_self a l))]
    exact ih z (fun s hs => h s (List.mem_cons_of_mem a hs))

theorem fetchFileContent_error_of_both_fail (env : FetchEnv) (st : PageState) (path : String)
    (hprim : primaryResult env st path = none)
    (hsec : secondaryFetchFails env path = true) :
    ∃ e, fetchFileContent env st path = .error e := by
  unfold fetchFileContent
  rw [hprim]
  unfold secondaryFetchFails at hsec
  cases hg : env (githubRawUrl path) with
  | some r =>
    rw [hg] at hsec
    simp only [Bool.not_eq_true'] at hsec
    simp [hsec]
  | none => simp

/-- C1: for every relative path, when the primary (base-prefixed) fetch
returns an ok response whose body, after trimming, begins with `<!DOCTYPE`
or `<html`, `fetchFileContent` rejects that body, attempts the GitHub raw
URL, and — when the secondary response is ok — resolves to the secondary
response's text. -/
theorem fetchFileContent_falls_back_on_html (env : FetchEnv) (st : PageState) (path : String)
    (r rg : FetchResponse)
    (hprim : env (primaryUrl st path) = some r) (hok : r.ok = true)
    (hhtml : isHtmlContent r.body = true)
    (hsec : env (githubRawUrl path) = some rg) (hgok : rg.ok = true) :
    fetchFileContent env st path = .ok rg.body := by
  simp [fetchFileContent, primaryResult, hprim, hok, hhtml, hsec, hgok]

/-- Witness for C1: a network serving an HTML page at the primary URL and
real markdown at the GitHub raw URL resolves to the markdown. -/
theorem fetchFileContent_falls_back_on_html_witness :
    fetchFileContent wEnvHtmlThenReal wStEmpty "_skills/writing/latex-tables/SKILL.md"
      = .ok "# latex-tables skill" :=
  fetchFileContent_falls_back_on_html wEnvHtmlThenReal wStEmpty
    "_skills/writing/latex-tables/SKILL.md" wRespHtml wRespReal
    (by decide) (by decide) (by decide) (by decide) (by decide)

/-- C10: the HTML-content check is applied only to the primary body; once
the primary attempt yields nothing, an ok secondary response is returned
unvalidated, so the resolver's result can itself be an HTML document. -/
theorem fetchFileContent_secondary_unvalidated (env : FetchEnv) (st : PageState) (path : String)
    (rg : FetchResponse)
    (hprim : primaryResult env st path = none)
    (hsec : env (githubRawUrl path) = some rg) (hgok : rg.ok = true) :
    fetchFileContent env st path = .ok rg.body := by
  unfold fetchFileContent
  rw [hprim, hsec]
  simp [hgok]

/-- Witness for C10: with the GitHub raw URL answering with an HTML body,
the resolver returns that body even though the HTML check flags it. -/
theorem fetchFileContent_secondary_unvalidated_witness :
    fetchFileContent wEnvRawHtml wStEmpty "p.md"
        = .ok "<!DOCTYPE html><html><body>rendered page</body></html>"
      ∧ isHtmlContent "<!DOCTYPE html><html><body>rendered page</body></html>" = true :=
  ⟨fetchFileContent_secondary_unvalidated wEnvRawHtml wStEmpty "p.md" wRespHtml
      (by decide) (by decide) (by decide),
   by decide⟩

/-- C6: when both the primary fetch and the secondary GitHub raw fetch fail
for the derived path, `downloadSkillFile` alerts and saves no file. -/
theorem downloadSkillFile_total_failure (env : FetchEnv) (st : PageState)
    (hprim : primaryResult env st (deriveSkillPath st) = none)
    (hsec : secondaryFetchFails env (deriveSkillPath st) = true) :
    (downloadSkillFile env st).alerted = true
      ∧ (downloadSkillFile env st).savedFile = none := by
  obtain ⟨e, he⟩ := fetchFileContent_error_of_both_fail env st (deriveSkillPath st) hprim hsec
  unfold downloadSkillFile
  simp [he]

/-- Witness for C6: an unreachable network makes the single-file flow alert
and save nothing. -/
theorem downloadSkillFile_total_failure_witness :
    (downloadSkillFile wEnvNone wStEmpty).alerted = true
      ∧ (downloadSkillFile wEnvNone wStEmpty).savedFile = none :=
  downloadSkillFile_total_failure wEnvNone wStEmpty (by decide) (by decide)

/-- C7: `getBaseUrl` checks, in strict priority order: the injected
`window.siteBaseurl` when defined; else the base-tag href pathname with a
trailing slash stripped; else `/awesome-econ-ai-stuff` when the page path
contains that substring; else the empty string. -/
theorem getBaseUrl_priority (st : PageState) :
    (∀ b, st.siteBaseurl = some b → getBaseUrl st = b)
    ∧ (∀ p, st.siteBaseurl = none → st.baseHrefPathname = some p →
        getBaseUrl st = stripTrailingSlash p)
    ∧ (st.siteBaseurl = none → st.baseHrefPathname = none →
        jsIncludes st.locationPathname "/awesome-econ-ai-stuff" = true →
        getBaseUrl st = "/awesome-econ-ai-stuff")
    ∧ (st.siteBaseurl = none → st.baseHrefPathname = none →
        jsIncludes st.locationPathname "/awesome-econ-ai-stuff" = false →
        getBaseUrl st = "") := by
  refine ⟨?_, ?_, ?_, ?_⟩
  · intro b hb
    unfold getBaseUrl getBaseUrlS
    rw [hb]
  · intro p h1 h2
    unfold getBaseUrl getBaseUrlS
    rw [h1, h2]
  · intro h1 h2 h3
    unfold getBaseUrl getBaseUrlS
    rw [h1, h2]
    simp [h3]
  · intro h1 h2 h3
    unfold getBaseUrl getBaseUrlS
    rw [h1, h2]
    simp [h3]

/-- Witness for C7: one concrete page state per detection clause. -/
theorem getBaseUrl_priority_witness :
    getBaseUrl wStInjected = "/injected"
      ∧ getBaseUrl wStBaseTag = stripTrailingSlash "/tag/"
      ∧ getBaseUrl wStHeuristic = "/awesome-econ-ai-stuff"
      ∧ getBaseUrl wStPlain = "" :=
  ⟨(getBaseUrl_priority wStInjected).1 "/injected" rfl,
   (getBaseUrl_priority wStBaseTag).2.1 "/tag/" rfl rfl,
   (getBaseUrl_priority wStHeuristic).2.2.1 rfl rfl (by decide),
   (getBaseUrl_priority wStPlain).2.2.2 rfl rfl (by decide)⟩

/-- C8: the single-file path derivation (including its per-call
re-evaluation of the base url) mutates no ambient state, and re-running it
on the state left by a first run yields the same derived path. -/
theorem deriveSkillPath_deterministic_and_pure (st : PageState) :
    (deriveSkillPathS st).2 = st
      ∧ (deriveSkillPathS ((deriveSkillPathS st).2)).1 = (deriveSkillPathS st).1 := by
  refine ⟨deriveSkillPathS_snd st, ?_⟩
  rw [deriveSkillPathS_snd st]

/-- C2: for a catalog of N entries of which M (0 < M < N) fail both
resolution attempts, the bulk download (with JSZip loaded and archive
serialization succeeding) saves an archive with exactly N - M files and
finishes with no error and no alert: every per-entry resolution settles on
its own and a failure only omits that entry. -/
theorem downloadAll_partial_failure (benv : BulkEnv) (st : PageState) (catalog : List Skill)
    (hjs : benv.jszipLoaded = true) (hgen : benv.generateOk = true)
    (_hM : 0 < catalog.countP (resolveFails benv.fetch st))
    (_hMN : catalog.countP (resolveFails benv.fetch st) < catalog.length) :
    (downloadAllSkillsWith benv st catalog).savedZip
        = some ("awesome-econ-ai-skills.zip", assembleZip benv.fetch st catalog)
    ∧ (assembleZip benv.fetch st catalog).files.length
        = catalog.length - catalog.countP (resolveFails benv.fetch st)
    ∧ (downloadAllSkillsWith benv st catalog).alerted = false := by
  have h := foldl_zipStep_length benv.fetch st catalog emptySkillsZip
  refine ⟨?_, ?_, ?_⟩
  · unfold downloadAllSkillsWith
    simp [hjs, hgen]
  · unfold assembleZip
    have hz : emptySkillsZip.files.length = 0 := rfl
    omega
  · unfold downloadAllSkillsWith
    simp [hjs, hgen]

/-- Witness for C2: a two-entry catalog where exactly one entry resolves
yields a one-file archive and no alert. -/
theorem downloadAll_partial_failure_witness :
    (downloadAllSkillsWith wBulkOnlyX wStEmpty [wSkillX, wSkillY]).savedZip
        = some ("awesome-econ-ai-skills.zip",
            assembleZip wBulkOnlyX.fetch wStEmpty [wSkillX, wSkillY])
    ∧ (assembleZip wBulkOnlyX.fetch wStEmpty [wSkillX, wSkillY]).files.length
        = [wSkillX, wSkillY].length
            - List.countP (resolveFails wBulkOnlyX.fetch wStEmpty) [wSkillX, wSkillY]
    ∧ (downloadAllSkillsWith wBulkOnlyX wStEmpty [wSkillX, wSkillY]).alerted = false :=
  downloadAll_partial_failure wBulkOnlyX wStEmpty [wSkillX, wSkillY]
    (by decide) (by decide) (by decide) (by decide)

/-- C3: every successfully resolved catalog entry lands in the archive at
`skills/` + second segment + `/` + third segment + `/SKILL.md` of its
relative path split on `/`; in particular the entry with path
`_skills/writing/latex-tables/SKILL.md` lands at
`skills/writing/latex-tables/SKILL.md`. -/
theorem downloadAll_archive_layout (benv : BulkEnv) (st : PageState) (catalog : List Skill)
    (skill : Skill) (content : String)
    (hjs : benv.jszipLoaded = true) (hgen : benv.generateOk = true)
    (hmem : skill ∈ catalog)
    (hok : fetchFileContent benv.fetch st skill.path = .ok content) :
    (downloadAllSkillsWith benv st catalog).savedZip
        = some ("awesome-econ-ai-skills.zip", assembleZip benv.fetch st catalog)
    ∧ (zipFilePath skill.path, content) ∈ (assembleZip benv.fetch st catalog).files
    ∧ zipFilePath "_skills/writing/latex-tables/SKILL.md"
        = "skills/writing/latex-tables/SKILL.md" := by
  refine ⟨?_, ?_, by decide⟩
  · unfold downloadAllSkillsWith
    simp [hjs, hgen]
  · exact foldl_zipStep_mem benv.fetch st catalog emptySkillsZip skill content hmem hok

/-- Witness for C3: with the real `SKILLS_LIST` and a network serving the
latex-tables entry, its content appears at the rewritten archive path. -/
theorem downloadAll_archive_layout_witness :
    (downloadAllSkillsWith wBulkOnlyLatex wStEmpty SKILLS_LIST).savedZip
        = some ("awesome-econ-ai-skills.zip",
            assembleZip wBulkOnlyLatex.fetch wStEmpty SKILLS_LIST)
    ∧ (zipFilePath wSkillLatex.path, "# latex-tables skill")
        ∈ (assembleZip wBulkOnlyLatex.fetch wStEmpty SKILLS_LIST).files
    ∧ zipFilePath "_skills/writing/latex-tables/SKILL.md"
        = "skills/writing/latex-tables/SKILL.md" :=
  downloadAll_archive_layout wBulkOnlyLatex wStEmpty SKILLS_LIST wSkillLatex
    "# latex-tables skill" (by decide) (by decide) (by decide) rfl

/-- C9: when every catalog entry fails resolution, the bulk download still
saves a zip under the fixed name containing only the empty top-level
`skills` folder, with no alert; the alert path fires exactly when JSZip is
unavailable or archive serialization fails, never from fetch failures. -/
theorem downloadAll_all_fail_silent (benv : BulkEnv) (st : PageState) (catalog : List Skill)
    (hjs : benv.jszipLoaded = true) (hgen : benv.generateOk = true)
    (hfail : ∀ skill ∈ catalog, resolveFails benv.fetch st skill = true) :
    (downloadAllSkillsWith benv st catalog).savedZip
        = some ("awesome-econ-ai-skills.zip", emptySkillsZip)
    ∧ (downloadAllSkillsWith benv st catalog).alerted = false
    ∧ (∀ (benv2 : BulkEnv) (st2 : PageState) (catalog2 : List Skill),
        (downloadAllSkillsWith benv2 st2 catalog2).alerted = true
          ↔ benv2.jszipLoaded = false ∨ benv2.generateOk = false) := by
  have hz : assembleZip benv.fetch st catalog = emptySkillsZip :=
    foldl_zipStep_all_fail benv.fetch st catalog emptySkillsZip hfail
  refine ⟨?_, ?_, ?_⟩
  · unfold downloadAllSkillsWith
    simp [hjs, hgen, hz]
  · unfold downloadAllSkillsWith
    simp [hjs, hgen]
  · intro benv2 st2 catalog2
    unfold downloadAllSkillsWith
    by_cases h1 : benv2.jszipLoaded = false <;> by_cases h2 : benv2.generateOk = false <;>
      simp [h1, h2]

/-- Witness for C9: a one-entry catalog on an unreachable network still
saves the fixed-name zip with the lone empty `skills` folder, silently. -/
theorem downloadAll_all_fail_silent_witness :
    (downloadAllSkillsWith wBulkNone wStEmpty [wSkillX]).savedZip
        = some ("awesome-econ-ai-skills.zip", emptySkillsZip)
    ∧ (downloadAllSkillsWith wBulkNone wStEmpty [wSkillX]).alerted = false :=
  ⟨(downloadAll_all_fail_silent wBulkNone wStEmpty [wSkillX]
      (by decide) (by decide) (by decide)).1,
   (downloadAll_all_fail_silent wBulkNone wStEmpty [wSkillX]
      (by decide) (by decide) (by decide)).2.1⟩

theorem stripBase_append (b s : String) (hb0 : b ≠ "") :
    (if b ≠ "" ∧ jsStartsWith (b ++ s) b then jsDropChars (b ++ s) b.length else b ++ s)
      = s := by
  have hc : b ≠ "" ∧ jsStartsWith (b ++ s) b = true := ⟨hb0, jsStartsWith_append b s⟩
  rw [if_pos hc, jsDropChars_append]

/-- C4: for any page state whose path is the detected base prefix followed
by `/skills/analysis/r-econometrics/`, the single-file derivation strips
the base prefix, strips the trailing slash, appends `/SKILL.md`, and
rewrites the leading `/skills/` to `_skills/`, yielding
`_skills/analysis/r-econometrics/SKILL.md`. -/
theorem deriveSkillPath_rewrite (st : PageState) (b : String)
    (hb : getBaseUrl st = b)
    (hp : st.locationPathname = b ++ "/skills/analysis/r-econometrics/") :
    deriveSkillPath st = "_skills/analysis/r-econometrics/SKILL.md" := by
  have hgb : (getBaseUrlS st).1 = b := hb
  by_cases hb0 : b = ""
  · subst hb0
    simp only [deriveSkillPath, deriveSkillPathS, hgb, hp]
    decide
  · simp only [deriveSkillPath, deriveSkillPathS, hgb, hp,
      stripBase_append b "/skills/analysis/r-econometrics/" hb0]
    decide

/-- Witness for C4: on the deployed site's r-econometrics page the derived
path is the internal `_skills` one. -/
theorem deriveSkillPath_rewrite_witness :
    deriveSkillPath wStDeployed = "_skills/analysis/r-econometrics/SKILL.md" :=
  deriveSkillPath_rewrite wStDeployed "/awesome-econ-ai-stuff" (by decide) (by decide)

/-- C5: after any bulk or single-file run — success, partial failure, or
total failure — the triggering button is enabled again and shows its idle
label (`Download All Skills` for bulk, `Download SKILL.md` for single). -/
theorem buttons_restored (benv : BulkEnv) (env : FetchEnv) (st st2 : PageState)
    (catalog : List Skill) :
    (downloadAllSkillsWith benv st catalog).buttonDisabled = false
    ∧ (downloadAllSkillsWith benv st catalog).buttonLabel = "Download All Skills"
    ∧ (downloadSkillFile env st2).buttonDisabled = false
    ∧ (downloadSkillFile env st2).buttonLabel = "Download SKILL.md" := by
  refine ⟨?_, ?_, ?_, ?_⟩ <;>
    first
    | (unfold downloadAllSkillsWith
       by_cases h1 : benv.jszipLoaded = false <;> by_cases h2 : benv.generateOk = false <;>
         simp [h1, h2])
    | (unfold downloadSkillFile
       cases hf : fetchFileContent env st2 (deriveSkillPath st2) <;> simp [hf])
